import Mathlib

/-!
Verification of the request-orchestration core of the agent starter kit.

Shallow embedding of:
  * `app/core/rate_limit.py`        (`MemoryFixedWindowLimiter.check`)
  * `app/core/dedupe.py`            (`MemoryDedupeStore.mark`)
  * `app/core/dedupe_mysql.py`      (`MySQLDedupeStore.mark` / `cleanup`)
  * `app/agent/confirmations_db.py` (`MySQLConfirmationStore.consume`)
  * `app/agent/planner.py`          (`LLMPlanner.plan`)
  * `app/agent/orchestrator.py`     (`AgentOrchestrator.handle_message`)

Machine times are embedded as `ℤ` (seconds, as the Python code uses epoch
seconds / UTC timestamps) except the rate limiter, whose `time.time()` floats
are embedded as `ℚ`.  External collaborators (the planning service, the tool
registry, JSON serialisation of opaque argument records) are oracles passed
as parameters, so every theorem quantifies over their behaviour.
-/

/-! ## Python string primitives

The orchestrator uses `str.lower`, `str.strip`, `str.startswith`, `in` and
`str.split(" ", 1)`.  They are embedded structurally over `String.data`
(lists of characters) so that they compute by kernel reduction.  The inputs
the code feeds them are such that `Char.toLower` agrees with Python's
`str.lower` (the search keywords are pure lowercase ASCII, and ASCII
characters are lowered identically by both).
-/

/-- Python `str.lower()` (character-wise lowering). -/
def pyLower (s : String) : String :=
  ⟨s.data.map Char.toLower⟩

/-- Decidable "`pre` is a leading segment of `l`" on character lists. -/
def leadsWith : List Char → List Char → Bool
  | [], _ => true
  | _ :: _, [] => false
  | a :: as, b :: bs => a == b && leadsWith as bs

/-- Occurrence of `needle` inside `hay` (character lists). -/
def containsSub (needle : List Char) : List Char → Bool
  | [] => needle.isEmpty
  | c :: rest => leadsWith needle (c :: rest) || containsSub needle rest

/-- Python `needle in hay` on strings (for non-empty `needle`). -/
def pyIn (needle hay : String) : Bool :=
  containsSub needle.data hay.data

/-- Python `s.startswith(pre)`. -/
def pyStartsWith (s pre : String) : Bool :=
  leadsWith pre.data s.data

/-- Python `s.strip()`: drop leading and trailing whitespace. -/
def pyStrip (s : String) : String :=
  ⟨((s.data.dropWhile Char.isWhitespace).reverse.dropWhile Char.isWhitespace).reverse⟩

/-- Drop the first `n` characters of a string. -/
def strDropChars (s : String) (n : Nat) : String :=
  ⟨s.data.drop n⟩

/-- Python truthiness of an optional string (`None` and `""` are falsy). -/
def pyTruthyStr : Option String → Bool
  | none => false
  | some s => !s.isEmpty

/-- Python `int()` on a rational (truncation toward zero). -/
def pyInt (x : ℚ) : ℤ :=
  if 0 ≤ x then ⌊x⌋ else -⌊-x⌋

/-! ## `app/core/rate_limit.py` — `MemoryFixedWindowLimiter`

The per-key state is the deque of admitted timestamps, oldest first (the
Python `deque` only ever has `popleft` at the front and `append` at the
back).  `check` evicts timestamps strictly older than `now - window_sec`,
denies when the retained count is at the maximum and otherwise admits,
recording `now`.
-/

structure RateLimitResult where
  allowed : Bool
  retry_after_sec : ℤ := 0
deriving Repr, DecidableEq

namespace MemoryFixedWindowLimiter

/-- One `check` call: `(max_requests, window_sec)` are the limiter's
configuration, `q` the retained timestamps for the key, `now` the clock.
Returns the result and the updated deque.  (The Python read `q[0]` in the
deny branch is only reachable with `q` non-empty, i.e. `max_requests ≥ 1`;
`headD` supplies a default for the configuration the code never runs.) -/
def check (max_requests : ℕ) (window_sec : ℚ) (q : List ℚ) (now : ℚ) :
    RateLimitResult × List ℚ :=
  let cutoff := now - window_sec
  let q := q.dropWhile (fun t => decide (t < cutoff))
  if max_requests ≤ q.length then
    let retry := pyInt (max 1 ((q.headD 0 + window_sec) - now))
    ({ allowed := false, retry_after_sec := retry }, q)
  else
    ({ allowed := true }, q ++ [now])

end MemoryFixedWindowLimiter

/-! ## `app/core/dedupe.py` — `MemoryDedupeStore`

The store is the dict `key ↦ first_seen_epoch` with `key = provider ++ ":" ++
message_id`, embedded as an association list in insertion order.  Every
`mark` first runs `_cleanup`, which evicts entries with `now - ts > ttl`
(the store's own `ttl_sec`; the `ttl_sec` argument of `mark` is unused by
this variant), then answers by key presence.
-/

namespace MemoryDedupeStore

def cleanupRun (ttl_sec : ℤ) (now : ℤ) (store : List (String × ℤ)) :
    List (String × ℤ) :=
  store.filter (fun kv => decide (now - kv.2 ≤ ttl_sec))

def mark (ttl_sec : ℤ) (now : ℤ) (store : List (String × ℤ))
    (provider message_id : String) : Bool × List (String × ℤ) :=
  let store := cleanupRun ttl_sec now store
  let key := provider ++ ":" ++ message_id
  match store.lookup key with
  | some _ => (false, store)
  | none => (true, store ++ [(key, now)])

end MemoryDedupeStore

/-! ## `app/core/dedupe_mysql.py` — `MySQLDedupeStore`

The table `dedupe_messages` with its unique key on `(provider, message_id)`
is embedded as a list of rows; the `INSERT` raising `IntegrityError` exactly
when the key is already present is the branch on key presence.  Note that
the insert fails on *any* row with the key, expired or not: rows are only
removed by `cleanup`.
-/

structure DedupeRow where
  provider : String
  message_id : String
  first_seen_at : ℤ
  expires_at : ℤ
  payload_hash : Option String
deriving Repr, DecidableEq

namespace MySQLDedupeStore

def keyPresent (store : List DedupeRow) (provider message_id : String) : Bool :=
  store.any (fun r => r.provider == provider && r.message_id == message_id)

/-- `mark`: `ttl = ttl_sec or ttl_default` (Python `or`: `None` and `0` fall
back to the default), then insert-if-absent on the unique key. -/
def mark (ttl_default : ℤ) (ttl_sec : Option ℤ) (now : ℤ)
    (store : List DedupeRow) (provider message_id : String)
    (payload_hash : Option String) : Bool × List DedupeRow :=
  let ttl := match ttl_sec with
    | none => ttl_default
    | some t => if t = 0 then ttl_default else t
  if keyPresent store provider message_id then
    (false, store)
  else
    (true, store ++ [{ provider := provider, message_id := message_id,
                       first_seen_at := now, expires_at := now + ttl,
                       payload_hash := payload_hash }])

/-- `cleanup`: `DELETE FROM dedupe_messages WHERE expires_at < now`. -/
def cleanupRun (now : ℤ) (store : List DedupeRow) : List DedupeRow :=
  store.filter (fun r => decide (¬ r.expires_at < now))

end MySQLDedupeStore

/-! ## `app/agent/confirmations_db.py` — `MySQLConfirmationStore`

The table `pending_confirmations` is embedded as a list of rows in
insertion order.  `consume` runs inside one transaction whose
`SELECT ... FOR UPDATE` takes an exclusive lock on the matched row until
the transaction commits or rolls back, so two concurrent `consume` calls on
the same token never interleave: any concurrent execution is equivalent to
some serial order of whole `consume` calls.  Each call is therefore
embedded as one atomic step on the table state, and concurrency claims are
settled over arbitrary serialisations (`consumeMany`).

`tool_args_json` holds `json.dumps(tool_args)`; `consume` returns
`json.loads` of it.  The JSON text itself is carried (the round trip is the
identity on what `create` captured).
-/

inductive ConfStatus where
  | pending
  | consumed
  | expired
deriving Repr, DecidableEq

structure ConfRow where
  token : String
  short_code : Option String
  session_id : String
  tool_name : String
  tool_args_json : String
  status : ConfStatus
  expires_at : Option ℤ
  consumed_at : Option ℤ := none
deriving Repr, DecidableEq

/-- What `consume` returns on success. -/
structure ConsumePayload where
  session_id : String
  tool_name : String
  tool_args_json : String
deriving Repr, DecidableEq

namespace MySQLConfirmationStore

/-- `SELECT ... WHERE token = :v OR short_code = :v FOR UPDATE` followed by
`.first()`: the first row matching the token or the short code. -/
def findConf (v : String) (rows : List ConfRow) : Option ConfRow :=
  rows.find? (fun r => r.token == v || r.short_code == some v)

/-- The guard `expires_at is not None and expires_at < now`. -/
def expiredAt (row : ConfRow) (now : ℤ) : Bool :=
  match row.expires_at with
  | some e => decide (e < now)
  | none => false

/-- `UPDATE pending_confirmations SET status='expired' WHERE token=:token`. -/
def markExpired (tok : String) (rows : List ConfRow) : List ConfRow :=
  rows.map (fun r => if r.token = tok then { r with status := .expired } else r)

/-- `UPDATE ... SET status='consumed', consumed_at=now
WHERE token=:token AND status='pending'`. -/
def markConsumed (tok : String) (now : ℤ) (rows : List ConfRow) : List ConfRow :=
  rows.map (fun r =>
    if r.token = tok ∧ r.status = .pending then
      { r with status := .consumed, consumed_at := some now }
    else r)

/-- `MySQLConfirmationStore.consume(db, token_or_code, session_id)` —
returns the captured payload (or `none`) and the table after the
transaction. -/
def consume (rows : List ConfRow) (token_or_code : String)
    (session_id : String) (now : ℤ) : Option ConsumePayload × List ConfRow :=
  match findConf token_or_code rows with
  | none => (none, rows)
  | some row =>
    if row.session_id ≠ session_id then (none, rows)
    else if row.status ≠ .pending then (none, rows)
    else if expiredAt row now then
      (none, markExpired row.token rows)
    else
      (some { session_id := row.session_id, tool_name := row.tool_name,
              tool_args_json := row.tool_args_json },
       markConsumed row.token now rows)

/-- A serial run of `consume` calls bearing the same token-or-code and
session, at the given clock values. -/
def consumeMany (rows : List ConfRow) (v session_id : String) :
    List ℤ → List (Option ConsumePayload) × List ConfRow
  | [] => ([], rows)
  | now :: rest =>
    let step := consume rows v session_id now
    let tail := consumeMany step.2 v session_id rest
    (step.1 :: tail.1, tail.2)

/-- Python keyword-argument binding for `consume`, whose parameters (after
`self` and `db`) are named `token_or_code` and `session_id`.  A keyword
argument with any other name raises `TypeError`; a missing `token_or_code`
raises `TypeError` as well.  `app/agent/orchestrator.py` calls
`consume(db, token=..., session_id=...)`. -/
def consumeKwCall (rows : List ConfRow) (now : ℤ)
    (kwargs : List (String × String)) :
    Except String (Option ConsumePayload × List ConfRow) :=
  if !kwargs.all (fun kv => kv.1 == "token_or_code" || kv.1 == "session_id") then
    .error "TypeError: consume() got an unexpected keyword argument"
  else
    match kwargs.lookup "token_or_code", kwargs.lookup "session_id" with
    | some v, some sid => .ok (consume rows v sid now)
    | _, _ => .error "TypeError: consume() missing a required argument"

end MySQLConfirmationStore

/-! ## `app/agent/planner.py` — `LLMPlanner.plan`

The external planning service is an oracle `responses : ℕ → String` giving
the text of the `n`-th `chat_json` call of the turn (the first is the
planning call, later ones the repair calls; indexing by call order loses no
generality since each call's prompt is a function of the history).
`parse_json_strict` and `validate_planner_output` are oracles over abstract
`Obj` (parsed JSON) and `Model` (a validated `PlannerOutput`): `parse`
returning `none` is `json.loads` raising, `validate` returning `.error` is
the Pydantic `ValidationError` branch.  `plan` returns the outcome — `.ok`
for a validated model (the code returns `model.model_dump()`, a faithful
serialisation of it), `.error` for any raised exception — paired with the
number of external `chat_json` calls made.
-/

namespace LLMPlanner

def plan {Obj Model : Type} (responses : ℕ → String)
    (parse : String → Option Obj)
    (validate : Obj → Except String Model) : Except String Model × ℕ :=
  match parse (responses 0) with
  | some obj =>
    match validate obj with
    | .ok model => (.ok model, 1)
    | .error _ =>
      match parse (responses 1) with
      | none => (.error "json.JSONDecodeError", 2)
      | some obj2 =>
        match validate obj2 with
        | .ok model2 => (.ok model2, 2)
        | .error err2 => (.error ("Planner output invalid after repair: " ++ err2), 2)
  | none =>
    match parse (responses 1) with
    | none => (.error "json.JSONDecodeError", 2)
    | some obj =>
      match validate obj with
      | .ok model => (.ok model, 2)
      | .error _ =>
        match parse (responses 2) with
        | none => (.error "json.JSONDecodeError", 3)
        | some obj2 =>
          match validate obj2 with
          | .ok model2 => (.ok model2, 3)
          | .error err2 => (.error ("Planner output invalid after repair: " ++ err2), 3)

end LLMPlanner

/-! ## `app/agent/schema.py` — the data model the orchestrator consumes

`UserMessage.raw`, `PlannerOutput.slots` and the `data`/`debug` payloads of
`AgentResponse` are carried by the code only into replies' auxiliary `data`
dictionaries and debug output; they are omitted here (none of the verified
claims mentions them).  Tool arguments are an abstract type `Args` (the
code passes opaque JSON-shaped dictionaries), with their `json.dumps` /
`json.loads` as oracles.
-/

structure UserMessage where
  message : String
  session_id : Option String
  channel : String
  user_id : Option String
  message_id : Option String

structure ToolCall (Args : Type) where
  name : String
  args : Args

/-- `PlannerOutput`: Pydantic further restricts `intent` to the literals
`identify | faq | read_data | write_action | unknown` and `missing` to
`cliente_ref | periodo`; the orchestrator compares them against string
constants only, so plain strings are carried. -/
structure PlannerOutput (Args : Type) where
  intent : String
  missing : List String
  tool_calls : List (ToolCall Args)
  final : Option String
  confidence : ℚ

structure AgentResponse where
  intent : String
  reply : String
  missing : List String
deriving Repr, DecidableEq

/-! ## `app/agent/orchestrator.py` — `AgentOrchestrator`

`handle_message` is embedded as a function from the inbound message and an
environment of collaborator oracles to the outbound response plus the
turn's observable traces: the audit events appended to the `EventBus`, the
`tool.run` executions (name, confirmed flag), and the
`confirmations_store.create` calls.  The `try/except` body is an `Except`
whose error value carries the exception text and the traces accumulated
before the raise (the event bus outlives the exception); the top-level
handler turns it into the fixed generic reply plus an ERROR event.
-/

inductive Event where
  | inMsg (text : String)
  | planEv (intent : String)
  | toolEv (tool_name : String) (confirmed : Bool)
  | outEv (intent : String)
  | errorEv (error : String)
deriving Repr, DecidableEq

/-- A registry entry (`app/plugins/base.py` contract): declared scopes,
Pydantic argument validation (`input_model.model_validate`, raising on
mismatch) and the tool body.  `run` receives the `confirmed` flag from the
context bundle; the remaining context fields (ids, mailer, settings) do not
influence the modelled observables and are not carried. -/
structure Tool (Args Res : Type) where
  scopes : List String
  validateArgs : Args → Except String Args
  run : Args → Bool → Except String Res

/-- One `confirmations_store.create(...)` call observed during the turn. -/
structure CreateCall (Args : Type) where
  session_id : String
  tool_name : String
  tool_args : Args

/-- Traces accumulated inside the `try` body. -/
structure Traces (Args : Type) where
  events : List Event := []
  invocations : List (String × Bool) := []
  creates : List (CreateCall Args) := []

/-- The collaborators of one `handle_message` turn, as oracles:
rate-limiter verdict, dedupe `mark` verdict, the confirmation table and
clock, the planner outcome (`.error` = raised exception), the tool
registry, JSON (de)serialisation, the answerer, `_format_write_result`
(pure presentation), and the token/short-code drawn by `create`. -/
structure Env (Args Res : Type) where
  request_id : String
  rateAllowed : Bool
  rateRetry : ℤ
  markFirst : Bool
  confRows : List ConfRow
  now : ℤ
  planner : Except String (PlannerOutput Args)
  registry : String → Option (Tool Args Res)
  loadsArgs : String → Args
  dumpsArgs : Args → String
  dumpsResults : List (String × Res) → String
  answerer : List (String × Res) → String
  formatWrite : String → Res → String
  confirmToken : String
  confirmShort : Option String

/-- The observable outcome of one turn. -/
structure TurnOut (Args : Type) where
  response : AgentResponse
  events : List Event
  invocations : List (String × Bool)
  creates : List (CreateCall Args)

namespace AgentOrchestrator

def rateLimitedReply (retry : ℤ) : String :=
  "⚠️ Estás enviando demasiados mensajes. Probá de nuevo en " ++ toString retry ++ "s."

def duplicateReply : String := "Mensaje duplicado (dedupe)."

def invalidConfirmationReply : String :=
  "❌ Confirmación inválida o expirada. Volvé a solicitar la acción."

def registrationNoToolReply : String :=
  "⚠️ Para registrar un cliente/usuario necesito ejecutar una herramienta y no se generó ninguna.\nProbá con:\nregistrar cliente | display_name=Nombre Apellido | email=mail@dominio.com | phone=+54..."

def registrationWrongToolReply : String :=
  "⚠️ Para registrar clientes debe usarse la herramienta register_customer.\nReintentá con:\nregistrar cliente | display_name=Nombre Apellido | email=mail@dominio.com | phone=+54..."

def writeNoToolReply : String :=
  "⚠️ Para ejecutar una acción de escritura necesito llamar una herramienta, pero no se generó ninguna."

def genericErrorReply : String :=
  "⚠️ Ocurrió un error procesando tu mensaje. Probá de nuevo o reformulalo."

def confirmationRequiredReply (name dumped tokenStr : String) : String :=
  "⚠️ Esta acción requiere confirmación.\n- Acción: " ++ name ++ "\n- Datos: " ++
    dumped ++ "\n\nSi querés continuar, respondé: confirm " ++ tokenStr

/-- The guardrail keyword list of `handle_message`. -/
def registerKeywords : List String :=
  ["registrar cliente", "alta cliente", "crear cliente", "nuevo cliente",
   "registrar usuario", "alta usuario", "crear usuario"]

/-- `wants_register_customer = any(k in msg_low for k in [...])`. -/
def wantsRegisterCustomer (message : String) : Bool :=
  registerKeywords.any (fun k => pyIn k (pyLower message))

/-- `_extract_confirm_token`.  `raw.split(" ", 1)[1].strip()` equals
dropping the matched prefix and stripping: the lowered copy starting with
`"confirm "` (resp. `"confirmar "`) places the first space of `raw` exactly
at the end of that prefix, since lowering is character-wise and maps
non-spaces to non-spaces. -/
def extract_confirm_token (text : String) : Option String :=
  let raw := pyStrip text
  let low := pyLower raw
  if pyStartsWith low "confirm " then some (pyStrip (strDropChars raw 8))
  else if pyStartsWith low "confirmar " then some (pyStrip (strDropChars raw 10))
  else none

def joinWith (sep : String) : List String → String
  | [] => ""
  | [s] => s
  | s :: rest => s ++ sep ++ joinWith sep rest

/-- `_ask_for_missing`. -/
def ask_for_missing (missing : List String) : String :=
  let questions :=
    (if "cliente_ref" ∈ missing then ["• ¿A qué cliente te referís? (nombre o referencia)"] else []) ++
    (if "periodo" ∈ missing then ["• ¿Qué período? (YYYY-MM, por ejemplo 2025-12)"] else [])
  "Me falta un dato para ayudarte:\n" ++ joinWith "\n" questions

/-- `_fallback_reply` (the `json.dumps` of the results dict is an oracle
output passed in already serialised). -/
def fallback_reply (intent dumpedResults : String) : String :=
  "Intent: " ++ intent ++ "\nResultados: " ++ dumpedResults

/-- Python `repr` of the dict `_create_confirmation` returns, as it is
interpolated into the confirmation reply (`f"... confirm \x7btoken\x7d"` where
`token` is the dict `create` returned). -/
def pyDictRepr (token short : String) : String :=
  "\x7b\x27token\x27: \x27" ++ token ++ "\x27, \x27short_code\x27: \x27" ++ short ++ "\x27\x7d"

/-- The `short_code` entry of the dict `create` returns:
`short_code or token`. -/
def confirmShortVal {Args Res : Type} (O : Env Args Res) : String :=
  match O.confirmShort with
  | none => O.confirmToken
  | some c => if c.isEmpty then O.confirmToken else c

/-- `plan.tool_calls[0].name` (callers guard non-emptiness). -/
def firstToolName {Args : Type} : List (ToolCall Args) → String
  | [] => ""
  | tc :: _ => tc.name

/-- The two settings fields `handle_message` branches on. -/
structure SettingsM where
  rate_limit_enabled : Bool
  enable_answerer : Bool

/-- `_finalize`: appends the session history triple (session persistence is
not among the verified observables), emits the OUT audit event and builds
the response. -/
def finalizeTurn {Args : Type} (intent reply : String) (missing : List String)
    (acc : Traces Args) : Except (String × Traces Args) (AgentResponse × Traces Args) :=
  .ok ({ intent := intent, reply := reply, missing := missing },
       { acc with events := acc.events ++ [.outEv intent] })

/-- `_run_tool`: registry lookup, argument validation (raising before the
`try`, hence no audit event), then the tool call — one TOOL event on
success, one ERROR event then re-raise on exception.  The invocation trace
records that `tool.run` was entered. -/
def runTool {Args Res : Type} (O : Env Args Res) (name : String) (args : Args)
    (confirmed : Bool) (acc : Traces Args) :
    Except (String × Traces Args) (Res × Traces Args) :=
  match O.registry name with
  | none => .error ("Tool not found: " ++ name, acc)
  | some tool =>
    match tool.validateArgs args with
    | .error e => .error (e, acc)
    | .ok parsed =>
      let acc := { acc with invocations := acc.invocations ++ [(name, confirmed)] }
      match tool.run parsed confirmed with
      | .ok out => .ok (out, { acc with events := acc.events ++ [.toolEv name confirmed] })
      | .error e => .error (e, { acc with events := acc.events ++ [.errorEv e] })

/-- The sequential tool loop of `handle_message`: the first write-scoped
tool call short-circuits into a pending confirmation, every other call runs
unconfirmed; after the loop the reply comes from the answerer or the
fallback template. -/
def toolLoop {Args Res : Type} (S : SettingsM) (O : Env Args Res)
    (session_id intent : String) :
    List (ToolCall Args) → Traces Args → List (String × Res) →
    Except (String × Traces Args) (AgentResponse × Traces Args)
  | [], acc, results =>
    let reply := if S.enable_answerer then O.answerer results
                 else fallback_reply intent (O.dumpsResults results)
    finalizeTurn intent reply [] acc
  | tc :: rest, acc, results =>
    match O.registry tc.name with
    | none => .error ("Tool not found: " ++ tc.name, acc)
    | some tool =>
      if "write" ∈ tool.scopes then
        let acc := { acc with creates := acc.creates ++ [⟨session_id, tc.name, tc.args⟩] }
        let tokenStr := pyDictRepr O.confirmToken (confirmShortVal O)
        finalizeTurn intent
          (confirmationRequiredReply tc.name (O.dumpsArgs tc.args) tokenStr) [] acc
      else
        match runTool O tc.name tc.args false acc with
        | .error ea => .error ea
        | .ok (out, acc) => toolLoop S O session_id intent rest acc (results ++ [(tc.name, out)])

/-- The guardrail / missing / final / tool-loop stages of `handle_message`,
entered once a validated plan is in hand and the PLAN event is appended. -/
def guardStage {Args Res : Type} (S : SettingsM) (O : Env Args Res)
    (msg : UserMessage) (session_id : String) (plan : PlannerOutput Args)
    (acc : Traces Args) :
    Except (String × Traces Args) (AgentResponse × Traces Args) :=
  let wants := wantsRegisterCustomer msg.message
  if wants && plan.tool_calls.isEmpty then
    finalizeTurn "error" registrationNoToolReply [] acc
  else if wants && !plan.tool_calls.isEmpty
      && firstToolName plan.tool_calls != "register_customer"
      && (O.registry "register_customer").isSome then
    finalizeTurn "error" registrationWrongToolReply [] acc
  else if plan.intent == "write_action" && plan.tool_calls.isEmpty then
    finalizeTurn "error" writeNoToolReply [] acc
  else if !plan.missing.isEmpty then
    finalizeTurn plan.intent (ask_for_missing plan.missing) plan.missing acc
  else if pyTruthyStr plan.final && plan.tool_calls.isEmpty
      && plan.intent != "write_action" then
    finalizeTurn plan.intent (plan.final.getD "") [] acc
  else if pyTruthyStr plan.final && plan.tool_calls.isEmpty then
    finalizeTurn plan.intent (plan.final.getD "") [] acc
  else
    toolLoop S O session_id plan.intent plan.tool_calls acc []

/-- The tail of `handle_message`: the `try` body's outcome becomes the
turn's response, the `except` handler appending the ERROR event and the
fixed generic reply. -/
def finishTurn {Args : Type}
    (body : Except (String × Traces Args) (AgentResponse × Traces Args)) :
    TurnOut Args :=
  match body with
  | .ok (resp, acc) =>
    { response := resp, events := acc.events,
      invocations := acc.invocations, creates := acc.creates }
  | .error (e, acc) =>
    { response := { intent := "error", reply := genericErrorReply, missing := [] },
      events := acc.events ++ [.errorEv e],
      invocations := acc.invocations, creates := acc.creates }

/-- `AgentOrchestrator.handle_message`. -/
def handle_message {Args Res : Type} (S : SettingsM) (O : Env Args Res)
    (msg : UserMessage) : TurnOut Args :=
  let session_id := msg.session_id.getD O.request_id
  if S.rate_limit_enabled && !O.rateAllowed then
    { response := { intent := "rate_limited", reply := rateLimitedReply O.rateRetry,
                    missing := [] },
      events := [], invocations := [], creates := [] }
  else
    finishTurn
      (if msg.message_id.isSome && !O.markFirst then
        .ok ({ intent := "unknown", reply := duplicateReply, missing := [] }, {})
      else
        let acc : Traces Args := { events := [.inMsg msg.message] }
        match extract_confirm_token msg.message with
        | some tok =>
          match MySQLConfirmationStore.consumeKwCall O.confRows O.now
              [("token", tok), ("session_id", session_id)] with
          | .error e => .error (e, acc)
          | .ok (none, _) => finalizeTurn "write_action" invalidConfirmationReply [] acc
          | .ok (some pending, _) =>
            match runTool O pending.tool_name (O.loadsArgs pending.tool_args_json) true acc with
            | .error ea => .error ea
            | .ok (out, acc) =>
              finalizeTurn "write_action" (O.formatWrite pending.tool_name out) [] acc
        | none =>
          match O.planner with
          | .error e => .error (e, acc)
          | .ok plan =>
            guardStage S O msg session_id plan
              { acc with events := acc.events ++ [.planEv plan.intent] })

/-- The invariant of C3 over the invocation trace: no entry calls a
write-scoped tool with `confirmed = false`. -/
def writeNeverUnconfirmed {Args Res : Type} (O : Env Args Res)
    (invs : List (String × Bool)) : Prop :=
  ∀ n c, (n, c) ∈ invs → c = false → ∀ t, O.registry n = some t → "write" ∉ t.scopes

end AgentOrchestrator

/-! ## Concrete turn instances used by the closed theorems

`Args := Unit`, `Res := Unit`; the oracles are the simplest total
functions.  `witnessRegistry` exposes one read-scoped tool (`ping`) and one
write-scoped tool (`book`).
-/

def witnessRegistry : String → Option (Tool Unit Unit) := fun n =>
  if n = "ping" then
    some { scopes := ["read"], validateArgs := fun a => Except.ok a,
           run := fun _ _ => Except.ok () }
  else if n = "book" then
    some { scopes := ["write"], validateArgs := fun a => Except.ok a,
           run := fun _ _ => Except.ok () }
  else none

def witnessSettings : AgentOrchestrator.SettingsM :=
  { rate_limit_enabled := true, enable_answerer := true }

/-- A turn whose plan runs the read tool `ping` once. -/
def readToolEnv : Env Unit Unit :=
  { request_id := "r1", rateAllowed := true, rateRetry := 0, markFirst := true,
    confRows := [], now := 0,
    planner := Except.ok { intent := "read_data", missing := [],
                           tool_calls := [⟨"ping", ()⟩], final := none,
                           confidence := 1 },
    registry := witnessRegistry, loadsArgs := fun _ => (),
    dumpsArgs := fun _ => "args", dumpsResults := fun _ => "res",
    answerer := fun _ => "ans", formatWrite := fun _ _ => "done",
    confirmToken := "tok", confirmShort := some "123456" }

/-- A turn carrying a valid pending confirmation for token `abc123` (same
session, unexpired) — the input on which the confirmation shortcut is
exercised. -/
def confirmTurnEnv : Env Unit Unit :=
  { request_id := "r1", rateAllowed := true, rateRetry := 0, markFirst := true,
    confRows := [⟨"abc123", some "111111", "s1", "create_appointment", "args",
                  ConfStatus.pending, some 1000, none⟩],
    now := 0, planner := Except.error "planner not reached",
    registry := witnessRegistry, loadsArgs := fun _ => (),
    dumpsArgs := fun _ => "args", dumpsResults := fun _ => "res",
    answerer := fun _ => "ans", formatWrite := fun _ _ => "done",
    confirmToken := "tok", confirmShort := some "123456" }

/-- A registration request whose plan carries no tool calls (and even a
final answer and a non-error intent). -/
def registrationTurnEnv : Env Unit Unit :=
  { request_id := "r1", rateAllowed := true, rateRetry := 0, markFirst := true,
    confRows := [], now := 0,
    planner := Except.ok { intent := "faq", missing := [], tool_calls := [],
                           final := some "listo", confidence := 1 },
    registry := witnessRegistry, loadsArgs := fun _ => (),
    dumpsArgs := fun _ => "args", dumpsResults := fun _ => "res",
    answerer := fun _ => "ans", formatWrite := fun _ _ => "done",
    confirmToken := "tok", confirmShort := some "123456" }

/-- A duplicate delivery: the message carries a provider id and the dedupe
store has seen it (`mark` returned false). -/
def duplicateTurnEnv : Env Unit Unit :=
  { request_id := "r1", rateAllowed := true, rateRetry := 0, markFirst := false,
    confRows := [], now := 0,
    planner := Except.ok { intent := "faq", missing := [], tool_calls := [],
                           final := some "hola", confidence := 1 },
    registry := witnessRegistry, loadsArgs := fun _ => (),
    dumpsArgs := fun _ => "args", dumpsResults := fun _ => "res",
    answerer := fun _ => "ans", formatWrite := fun _ _ => "done",
    confirmToken := "tok", confirmShort := some "123456" }

/-! # Theorems -/

/-! ## C10 — rate limiter denial bounds -/

/-- C10: with `window_sec = 60` and `max_requests = 3`, if three calls were
admitted within the last 60 seconds (timestamps `t1 ≤ t2 ≤ t3 ≤ now`, the
oldest still inside the window), a fourth `check` call is denied with
`0 < retry_after_sec ≤ 60`, computed by truncating (and clamping to at
least 1) the time until the oldest retained timestamp exits the window. -/
theorem rate_limiter_fourth_call_denied (t1 t2 t3 now : ℚ)
    (h12 : t1 ≤ t2) (h23 : t2 ≤ t3) (h3 : t3 ≤ now) (hwin : now - 60 ≤ t1) :
    (MemoryFixedWindowLimiter.check 3 60 [t1, t2, t3] now).1.allowed = false ∧
    0 < (MemoryFixedWindowLimiter.check 3 60 [t1, t2, t3] now).1.retry_after_sec ∧
    (MemoryFixedWindowLimiter.check 3 60 [t1, t2, t3] now).1.retry_after_sec ≤ 60 ∧
    (MemoryFixedWindowLimiter.check 3 60 [t1, t2, t3] now).1.retry_after_sec =
      pyInt (max 1 ((t1 + 60) - now)) := by
  have h1 : ¬ (t1 < now - 60) := not_lt.mpr hwin
  have hcheck : (MemoryFixedWindowLimiter.check 3 60 [t1, t2, t3] now).1 =
      { allowed := false, retry_after_sec := pyInt (max 1 ((t1 + 60) - now)) } := by
    simp [MemoryFixedWindowLimiter.check, List.dropWhile, h1]
  rw [hcheck]
  dsimp only
  have hx0 : (0 : ℚ) ≤ max 1 ((t1 + 60) - now) := le_trans zero_le_one (le_max_left _ _)
  have hpy : pyInt (max 1 ((t1 + 60) - now)) = ⌊max 1 ((t1 + 60) - now)⌋ := by
    simp [pyInt, hx0]
  refine ⟨rfl, ?_, ?_, rfl⟩
  · rw [hpy]
    have : (1 : ℤ) ≤ ⌊max 1 ((t1 + 60) - now)⌋ :=
      Int.le_floor.mpr (by exact_mod_cast le_max_left 1 ((t1 + 60) - now))
    omega
  · rw [hpy]
    have ht1 : t1 ≤ now := le_trans h12 (le_trans h23 h3)
    have hub : max 1 ((t1 + 60) - now) ≤ (60 : ℚ) := by
      apply max_le
      · norm_num
      · linarith
    calc ⌊max 1 ((t1 + 60) - now)⌋ ≤ ⌊(60 : ℚ)⌋ := Int.floor_le_floor hub
      _ = 60 := by norm_num

/-- Witness: three requests at time 0, a fourth at time 30 is denied with
retry-after 30 seconds. -/
theorem rate_limiter_fourth_call_denied_witness :
    (MemoryFixedWindowLimiter.check 3 60 [0, 0, 0] 30).1.allowed = false ∧
    0 < (MemoryFixedWindowLimiter.check 3 60 [0, 0, 0] 30).1.retry_after_sec ∧
    (MemoryFixedWindowLimiter.check 3 60 [0, 0, 0] 30).1.retry_after_sec ≤ 60 ∧
    (MemoryFixedWindowLimiter.check 3 60 [0, 0, 0] 30).1.retry_after_sec =
      pyInt (max 1 ((0 + 60) - 30)) :=
  rate_limiter_fourth_call_denied 0 0 0 30 (by norm_num) (by norm_num)
    (by norm_num) (by norm_num)

/-! ## C5 — dedupe `mark` across the TTL -/

/-- C5 counterexample: in the MySQL store, a `mark` call after the entry's
expiry timestamp has passed returns `false`, not `true` — the unique-key
insert fails on the stale row until `cleanup` deletes it.  Concretely:
first mark at time 0 with ttl 10 admits; a mark at time 100 (past the
expiry 10) is still rejected. -/
theorem dedupe_mark_after_expiry_counterexample :
    (MySQLDedupeStore.mark 3600 (some 10) 100
      (MySQLDedupeStore.mark 3600 (some 10) 0 [] "wa" "m1" none).2
      "wa" "m1" none).1 = false := by decide

/-- C5 (amended): for a fixed TTL, the first `mark` returns true and a
repeat before expiry returns false in both stores; after the expiry
timestamp the in-memory store (which evicts on every call) returns true
again, while the MySQL store keeps returning false until its `cleanup`
sweep has deleted the stale row, after which `mark` returns true again. -/
theorem dedupe_mark_ttl_semantics
    (provider message_id : String) (ttl ttlD t0 t1 t2 : ℤ)
    (store : List DedupeRow) (ph ph2 ph3 : Option String) :
    ((MemoryDedupeStore.mark ttl t0 [] provider message_id).1 = true)
    ∧ (t1 - t0 ≤ ttl →
        (MemoryDedupeStore.mark ttl t1
          (MemoryDedupeStore.mark ttl t0 [] provider message_id).2
          provider message_id).1 = false)
    ∧ (ttl < t2 - t0 →
        (MemoryDedupeStore.mark ttl t2
          (MemoryDedupeStore.mark ttl t0 [] provider message_id).2
          provider message_id).1 = true)
    ∧ (MySQLDedupeStore.keyPresent store provider message_id = false →
        (MySQLDedupeStore.mark ttlD (some ttl) t0 store provider message_id ph).1 = true)
    ∧ ((MySQLDedupeStore.mark ttlD (some ttl) t1
          (MySQLDedupeStore.mark ttlD (some ttl) t0 store provider message_id ph).2
          provider message_id ph2).1 = false)
    ∧ (MySQLDedupeStore.keyPresent store provider message_id = false → ttl ≠ 0 →
        t0 + ttl < t2 →
        (MySQLDedupeStore.mark ttlD (some ttl) t2
          (MySQLDedupeStore.cleanupRun t2
            (MySQLDedupeStore.mark ttlD (some ttl) t0 store provider message_id ph).2)
          provider message_id ph3).1 = true) := by
  have hmem1 : (MemoryDedupeStore.mark ttl t0 [] provider message_id) =
      (true, [(provider ++ ":" ++ message_id, t0)]) := by
    simp [MemoryDedupeStore.mark, MemoryDedupeStore.cleanupRun]
  refine ⟨by rw [hmem1], ?_, ?_, ?_, ?_, ?_⟩
  · intro h
    have h' : t1 ≤ ttl + t0 := by omega
    rw [hmem1]
    simp [MemoryDedupeStore.mark, MemoryDedupeStore.cleanupRun, h', List.lookup]
  · intro h
    have h2 : ¬ (t2 ≤ ttl + t0) := by omega
    rw [hmem1]
    simp [MemoryDedupeStore.mark, MemoryDedupeStore.cleanupRun, h2]
  · intro hk
    simp [MySQLDedupeStore.mark, hk]
  · by_cases hk : MySQLDedupeStore.keyPresent store provider message_id = true
    · have hst : (MySQLDedupeStore.mark ttlD (some ttl) t0 store provider message_id ph).2 =
          store := by simp [MySQLDedupeStore.mark, hk]
      rw [hst]
      simp [MySQLDedupeStore.mark, hk]
    · have hk' : MySQLDedupeStore.keyPresent store provider message_id = false := by
        simpa using hk
      have hst : (MySQLDedupeStore.mark ttlD (some ttl) t0 store provider message_id ph).2 =
          store ++ [{ provider := provider, message_id := message_id,
                      first_seen_at := t0,
                      expires_at := t0 + (if ttl = 0 then ttlD else ttl),
                      payload_hash := ph }] := by
        simp [MySQLDedupeStore.mark, hk']
      rw [hst]
      have hpres : MySQLDedupeStore.keyPresent
          (store ++ [{ provider := provider, message_id := message_id,
                       first_seen_at := t0,
                       expires_at := t0 + (if ttl = 0 then ttlD else ttl),
                       payload_hash := ph }]) provider message_id = true := by
        simp [MySQLDedupeStore.keyPresent, List.any_append]
      simp [MySQLDedupeStore.mark, hpres]
  · intro hk httl hlt
    have hst : (MySQLDedupeStore.mark ttlD (some ttl) t0 store provider message_id ph).2 =
        store ++ [{ provider := provider, message_id := message_id,
                    first_seen_at := t0, expires_at := t0 + ttl,
                    payload_hash := ph }] := by
      simp [MySQLDedupeStore.mark, hk, httl]
    rw [hst]
    have hx : ¬ (t2 ≤ t0 + ttl) := not_le.mpr hlt
    have hclean : MySQLDedupeStore.cleanupRun t2
        (store ++ [{ provider := provider, message_id := message_id,
                     first_seen_at := t0, expires_at := t0 + ttl,
                     payload_hash := ph }]) =
        store.filter (fun r => decide (t2 ≤ r.expires_at)) := by
      simp [MySQLDedupeStore.cleanupRun, List.filter_append, hx, not_lt]
    rw [hclean]
    have hkf : MySQLDedupeStore.keyPresent
        (store.filter (fun r => decide (t2 ≤ r.expires_at))) provider message_id = false := by
      rw [MySQLDedupeStore.keyPresent, List.any_eq_false]
      intro r hr
      have hrs : r ∈ store := List.mem_of_mem_filter hr
      have := List.any_eq_false.mp hk r hrs
      simpa using this
    simp [MySQLDedupeStore.mark, hkf]

/-- Witness for the amended C5 at `ttl = 10`, marks at times 0, 5 and 100. -/
theorem dedupe_mark_ttl_semantics_witness :
    ((MemoryDedupeStore.mark 10 0 [] "wa" "m1").1 = true)
    ∧ ((MemoryDedupeStore.mark 10 5
        (MemoryDedupeStore.mark 10 0 [] "wa" "m1").2 "wa" "m1").1 = false)
    ∧ ((MemoryDedupeStore.mark 10 100
        (MemoryDedupeStore.mark 10 0 [] "wa" "m1").2 "wa" "m1").1 = true)
    ∧ ((MySQLDedupeStore.mark 3600 (some 10) 0 [] "wa" "m1" none).1 = true)
    ∧ ((MySQLDedupeStore.mark 3600 (some 10) 5
        (MySQLDedupeStore.mark 3600 (some 10) 0 [] "wa" "m1" none).2
        "wa" "m1" none).1 = false)
    ∧ ((MySQLDedupeStore.mark 3600 (some 10) 100
        (MySQLDedupeStore.cleanupRun 100
          (MySQLDedupeStore.mark 3600 (some 10) 0 [] "wa" "m1" none).2)
        "wa" "m1" none).1 = true) := by
  obtain ⟨h1, h2, h3, h4, h5, h6⟩ :=
    dedupe_mark_ttl_semantics "wa" "m1" 10 3600 0 5 100 [] none none none
  exact ⟨h1, h2 (by norm_num), h3 (by norm_num), h4 rfl, h5,
         h6 rfl (by norm_num) (by norm_num)⟩

/-! ## C1 / C7 — confirmation consumption -/

namespace MySQLConfirmationStore

/-- `markConsumed` does not change the fields the row lookup matches on, so
the lookup finds the updated image of the same row. -/
theorem findConf_markConsumed (v tok : String) (now : ℤ) (rows : List ConfRow) :
    findConf v (markConsumed tok now rows) =
      (findConf v rows).map (fun r =>
        if r.token = tok ∧ r.status = ConfStatus.pending then
          { r with status := ConfStatus.consumed, consumed_at := some now }
        else r) := by
  unfold findConf markConsumed
  rw [List.find?_map]
  have hfun : ((fun r : ConfRow => r.token == v || r.short_code == some v) ∘ (fun r =>
      if r.token = tok ∧ r.status = ConfStatus.pending then
        { r with status := ConfStatus.consumed, consumed_at := some now } else r)) =
      (fun r : ConfRow => r.token == v || r.short_code == some v) := by
    funext r
    by_cases h : r.token = tok ∧ r.status = ConfStatus.pending <;> simp [h]
  rw [hfun]

/-- A matched row that is no longer pending makes `consume` a no-op
returning `none`. -/
theorem consume_not_pending (rows : List ConfRow) (v sid : String) (now : ℤ)
    (row : ConfRow) (hfind : findConf v rows = some row)
    (hsess : row.session_id = sid) (hstat : row.status ≠ ConfStatus.pending) :
    consume rows v sid now = (none, rows) := by
  unfold consume
  rw [hfind]
  simp [hsess, hstat]

/-- Every further `consume` in a serial run is a no-op once the matched row
is no longer pending. -/
theorem consumeMany_not_pending (rows : List ConfRow) (v sid : String)
    (ts : List ℤ) (row : ConfRow) (hfind : findConf v rows = some row)
    (hsess : row.session_id = sid) (hstat : row.status ≠ ConfStatus.pending) :
    consumeMany rows v sid ts = (ts.map (fun _ => none), rows) := by
  induction ts with
  | nil => rfl
  | cons t ts ih =>
    simp only [consumeMany]
    rw [consume_not_pending rows v sid t row hfind hsess hstat]
    simp [ih]

/-- The successful branch of `consume`. -/
theorem consume_success (rows : List ConfRow) (v sid : String) (now : ℤ)
    (row : ConfRow) (hfind : findConf v rows = some row)
    (hsess : row.session_id = sid) (hstat : row.status = ConfStatus.pending)
    (hexp : expiredAt row now = false) :
    consume rows v sid now =
      (some { session_id := row.session_id, tool_name := row.tool_name,
              tool_args_json := row.tool_args_json },
       markConsumed row.token now rows) := by
  unfold consume
  rw [hfind]
  simp [hsess, hstat, hexp]

end MySQLConfirmationStore

/-- C1: for a pending, unexpired confirmation whose session matches, any
serial run of `consume` calls bearing its token (or short code) — the
serialisation every concurrent schedule reduces to under the row lock taken
by `SELECT ... FOR UPDATE` — has exactly one call returning a payload, the
first, and it returns the captured tool name and arguments; every other
call returns `none`.  The status moves `pending → consumed` under the
`status = 'pending'` guard of the `UPDATE`. -/
theorem consume_exactly_once
    (rows : List ConfRow) (v sid : String) (row : ConfRow) (t : ℤ) (ts : List ℤ)
    (hfind : MySQLConfirmationStore.findConf v rows = some row)
    (hsess : row.session_id = sid)
    (hstat : row.status = ConfStatus.pending)
    (hexp : MySQLConfirmationStore.expiredAt row t = false) :
    ((MySQLConfirmationStore.consumeMany rows v sid (t :: ts)).1.countP Option.isSome = 1)
    ∧ (MySQLConfirmationStore.consumeMany rows v sid (t :: ts)).1.head? =
        some (some { session_id := row.session_id, tool_name := row.tool_name,
                     tool_args_json := row.tool_args_json }) := by
  have hstep := MySQLConfirmationStore.consume_success rows v sid t row hfind hsess hstat hexp
  have hfind2 : MySQLConfirmationStore.findConf v
      (MySQLConfirmationStore.markConsumed row.token t rows) =
      some { row with status := ConfStatus.consumed, consumed_at := some t } := by
    rw [MySQLConfirmationStore.findConf_markConsumed, hfind]
    simp [hstat]
  have hrest := MySQLConfirmationStore.consumeMany_not_pending
      (MySQLConfirmationStore.markConsumed row.token t rows) v sid ts
      { row with status := ConfStatus.consumed, consumed_at := some t }
      hfind2 hsess (by simp)
  constructor
  · simp only [MySQLConfirmationStore.consumeMany]
    rw [hstep, hrest]
    simp [List.countP_cons, List.countP_map, Function.comp]
  · simp only [MySQLConfirmationStore.consumeMany]
    rw [hstep, hrest]
    rfl

/-- Witness for C1: a pending row with expiry 100, consumed at times 50,
60, 70 in sequence: exactly one success, returning the captured payload. -/
theorem consume_exactly_once_witness :
    ((MySQLConfirmationStore.consumeMany
        [⟨"tokA", some "123456", "s1", "create_appointment", "args",
          ConfStatus.pending, some 100, none⟩] "tokA" "s1"
        [50, 60, 70]).1.countP Option.isSome = 1)
    ∧ (MySQLConfirmationStore.consumeMany
        [⟨"tokA", some "123456", "s1", "create_appointment", "args",
          ConfStatus.pending, some 100, none⟩] "tokA" "s1"
        [50, 60, 70]).1.head? =
        some (some { session_id := "s1", tool_name := "create_appointment",
                     tool_args_json := "args" }) :=
  consume_exactly_once
    [⟨"tokA", some "123456", "s1", "create_appointment", "args",
      ConfStatus.pending, some 100, none⟩]
    "tokA" "s1"
    ⟨"tokA", some "123456", "s1", "create_appointment", "args",
      ConfStatus.pending, some 100, none⟩
    50 [60, 70] rfl rfl rfl rfl

/-- C7: `consume` returns `none` exactly when there is no matching row, or
the matched row's session differs, or its status is not pending, or the
clock has passed its expiry; in the expiry case the matched row is
transitioned to `expired` as a side effect, and in the remaining case the
captured tool name and arguments are returned. -/
theorem consume_none_characterization (rows : List ConfRow) (v sid : String)
    (now : ℤ) :
    ((MySQLConfirmationStore.consume rows v sid now).1 = none ↔
      MySQLConfirmationStore.findConf v rows = none ∨
        ∃ row, MySQLConfirmationStore.findConf v rows = some row ∧
          (row.session_id ≠ sid ∨ row.status ≠ ConfStatus.pending ∨
            MySQLConfirmationStore.expiredAt row now = true))
    ∧ (∀ row, MySQLConfirmationStore.findConf v rows = some row →
        row.session_id = sid → row.status = ConfStatus.pending →
        MySQLConfirmationStore.expiredAt row now = true →
        ∀ r ∈ (MySQLConfirmationStore.consume rows v sid now).2,
          r.token = row.token → r.status = ConfStatus.expired)
    ∧ (∀ row, MySQLConfirmationStore.findConf v rows = some row →
        row.session_id = sid → row.status = ConfStatus.pending →
        MySQLConfirmationStore.expiredAt row now = false →
        (MySQLConfirmationStore.consume rows v sid now).1 =
          some { session_id := row.session_id, tool_name := row.tool_name,
                 tool_args_json := row.tool_args_json }) := by
  rcases hf : MySQLConfirmationStore.findConf v rows with _ | row
  · refine ⟨?_, ?_, ?_⟩
    · have hres : MySQLConfirmationStore.consume rows v sid now = (none, rows) := by
        unfold MySQLConfirmationStore.consume
        rw [hf]
      rw [hres]
      simp
    · intro row h
      cases h
    · intro row h
      cases h
  · by_cases hs : row.session_id = sid
    · by_cases hp : row.status = ConfStatus.pending
      · by_cases he : MySQLConfirmationStore.expiredAt row now = true
        · have hres : MySQLConfirmationStore.consume rows v sid now =
              (none, MySQLConfirmationStore.markExpired row.token rows) := by
            unfold MySQLConfirmationStore.consume
            rw [hf]
            simp [hs, hp, he]
          refine ⟨?_, ?_, ?_⟩
          · rw [hres]
            simp only [true_iff]
            exact Or.inr ⟨row, rfl, Or.inr (Or.inr he)⟩
          · intro row' hfind' _ _ _ r hr htok
            injection hfind' with hrow'
            subst hrow'
            rw [hres] at hr
            rcases List.mem_map.mp hr with ⟨r0, _, rfl⟩
            by_cases h0 : r0.token = row.token
            · simp [h0]
            · simp [h0] at htok ⊢
          · intro row' hfind' _ _ hexp'
            injection hfind' with hrow'
            subst hrow'
            rw [he] at hexp'
            cases hexp'
        · have he' : MySQLConfirmationStore.expiredAt row now = false := by
            simpa using he
          have hres := MySQLConfirmationStore.consume_success rows v sid now row hf hs hp he'
          refine ⟨?_, ?_, ?_⟩
          · rw [hres]
            constructor
            · intro h
              cases h
            · rintro (h | ⟨row', hfind', hdisj⟩)
              · cases h
              · injection hfind' with hrow'
                subst hrow'
                rcases hdisj with h | h | h
                · exact absurd hs h
                · exact absurd hp h
                · rw [he'] at h
                  cases h
          · intro row' hfind' _ _ hexp'
            injection hfind' with hrow'
            subst hrow'
            rw [he'] at hexp'
            cases hexp'
          · intro row' hfind' _ _ _
            injection hfind' with hrow'
            subst hrow'
            rw [hres]
      · have hres := MySQLConfirmationStore.consume_not_pending rows v sid now row hf hs hp
        refine ⟨?_, ?_, ?_⟩
        · rw [hres]
          simp only [true_iff]
          exact Or.inr ⟨row, rfl, Or.inr (Or.inl hp)⟩
        · intro row' hfind' _ hstat' _
          injection hfind' with hrow'
          subst hrow'
          exact absurd hstat' hp
        · intro row' hfind' _ hstat' _
          injection hfind' with hrow'
          subst hrow'
          exact absurd hstat' hp
    · have hres : MySQLConfirmationStore.consume rows v sid now = (none, rows) := by
        unfold MySQLConfirmationStore.consume
        rw [hf]
        simp [hs]
      refine ⟨?_, ?_, ?_⟩
      · rw [hres]
        simp only [true_iff]
        exact Or.inr ⟨row, rfl, Or.inl hs⟩
      · intro row' hfind' hsess' _ _
        injection hfind' with hrow'
        subst hrow'
        exact absurd hsess' hs
      · intro row' hfind' hsess' _ _
        injection hfind' with hrow'
        subst hrow'
        exact absurd hsess' hs

/-- Witness for C7: the success case on a concrete pending row. -/
theorem consume_none_characterization_witness :
    (MySQLConfirmationStore.consume
      [⟨"tokB", some "654321", "s2", "cancel_appointment", "args2",
        ConfStatus.pending, some 100, none⟩] "tokB" "s2" 40).1 =
      some { session_id := "s2", tool_name := "cancel_appointment",
             tool_args_json := "args2" } :=
  (consume_none_characterization
      [⟨"tokB", some "654321", "s2", "cancel_appointment", "args2",
        ConfStatus.pending, some 100, none⟩] "tokB" "s2" 40).2.2
    ⟨"tokB", some "654321", "s2", "cancel_appointment", "args2",
      ConfStatus.pending, some 100, none⟩ rfl rfl rfl rfl

/-! ## C4 / C6 — planner adapter -/

/-- C4 counterexample: a planning turn whose first response fails to parse
and whose first repair parses but fails validation makes `plan` issue a
second repair call — 3 external calls in total, refuting the claimed bound
of 2 (1 planning call + at most 1 repair call). -/
theorem planner_repair_budget_counterexample :
    ((LLMPlanner.plan (fun n => if n = 0 then "bad" else if n = 1 then "half" else "good")
        (fun s => if s = "bad" then none else some s)
        (fun s => if s = "good" then (Except.ok s : Except String String)
                  else Except.error "invalid")).2 = 3)
    ∧ ¬ ((LLMPlanner.plan (fun n => if n = 0 then "bad" else if n = 1 then "half" else "good")
        (fun s => if s = "bad" then none else some s)
        (fun s => if s = "good" then (Except.ok s : Except String String)
                  else Except.error "invalid")).2 ≤ 2) := by
  constructor
  · rfl
  · decide

/-- C4 (amended): `plan` issues at most 3 external calls per turn — the
planning call plus at most one repair call per failure type (one after a
parse failure, one after a validation failure), the worst case being a
parse failure followed by a validation failure; when the planning response
parses, at most 2 calls are made. -/
theorem planner_call_budget {Obj Model : Type} (responses : ℕ → String)
    (parse : String → Option Obj) (validate : Obj → Except String Model) :
    1 ≤ (LLMPlanner.plan responses parse validate).2
    ∧ (LLMPlanner.plan responses parse validate).2 ≤ 3
    ∧ (parse (responses 0) ≠ none →
        (LLMPlanner.plan responses parse validate).2 ≤ 2) := by
  have hcase : ((LLMPlanner.plan responses parse validate).2 = 1 ∨
      (LLMPlanner.plan responses parse validate).2 = 2 ∨
      (LLMPlanner.plan responses parse validate).2 = 3) ∧
      (parse (responses 0) = none ∨
        (LLMPlanner.plan responses parse validate).2 ≤ 2) := by
    unfold LLMPlanner.plan
    rcases h0 : parse (responses 0) with _ | obj
    · dsimp only
      rcases h1 : parse (responses 1) with _ | obj1
      · dsimp only
        exact ⟨Or.inr (Or.inl rfl), Or.inl rfl⟩
      · dsimp only
        rcases h2 : validate obj1 with e | m
        · dsimp only
          rcases h3 : parse (responses 2) with _ | obj2
          · dsimp only
            exact ⟨Or.inr (Or.inr rfl), Or.inl rfl⟩
          · dsimp only
            rcases h4 : validate obj2 with e2 | m2
            · dsimp only
              exact ⟨Or.inr (Or.inr rfl), Or.inl rfl⟩
            · dsimp only
              exact ⟨Or.inr (Or.inr rfl), Or.inl rfl⟩
        · dsimp only
          exact ⟨Or.inr (Or.inl rfl), Or.inl rfl⟩
    · dsimp only
      rcases h2 : validate obj with e | m
      · dsimp only
        rcases h1 : parse (responses 1) with _ | obj1
        · dsimp only
          exact ⟨Or.inr (Or.inl rfl), Or.inr (by norm_num)⟩
        · dsimp only
          rcases h4 : validate obj1 with e2 | m2
          · dsimp only
            exact ⟨Or.inr (Or.inl rfl), Or.inr (by norm_num)⟩
          · dsimp only
            exact ⟨Or.inr (Or.inl rfl), Or.inr (by norm_num)⟩
      · dsimp only
        exact ⟨Or.inl rfl, Or.inr (by norm_num)⟩
  obtain ⟨h123, himp⟩ := hcase
  refine ⟨?_, ?_, ?_⟩
  · rcases h123 with h | h | h <;> omega
  · rcases h123 with h | h | h <;> omega
  · intro hne
    rcases himp with h | h
    · exact absurd h hne
    · exact h

/-- Witness for the amended C4: a well-behaved oracle makes one call. -/
theorem planner_call_budget_witness :
    1 ≤ (LLMPlanner.plan (fun _ => "good") (fun s => some s)
          (fun s => (Except.ok s : Except String String))).2
    ∧ (LLMPlanner.plan (fun _ => "good") (fun s => some s)
          (fun s => (Except.ok s : Except String String))).2 ≤ 3
    ∧ (LLMPlanner.plan (fun _ => "good") (fun s => some s)
          (fun s => (Except.ok s : Except String String))).2 ≤ 2 := by
  obtain ⟨h1, h2, h3⟩ := planner_call_budget (fun _ => "good") (fun s => some s)
    (fun s => (Except.ok s : Except String String))
  exact ⟨h1, h2, h3 (by simp)⟩

/-- C6: `plan` either returns a value that passed `validate_planner_output`
(the `.ok` of some validated object) or fails with a planning error; and a
second validation failure, after the one repair attempt, is fatal. -/
theorem planner_returns_only_validated {Obj Model : Type} (responses : ℕ → String)
    (parse : String → Option Obj) (validate : Obj → Except String Model) :
    (∀ m, (LLMPlanner.plan responses parse validate).1 = Except.ok m →
        ∃ obj, validate obj = Except.ok m)
    ∧ (∀ obj obj2 e e2, parse (responses 0) = some obj →
        validate obj = Except.error e → parse (responses 1) = some obj2 →
        validate obj2 = Except.error e2 →
        (LLMPlanner.plan responses parse validate).1 =
          Except.error ("Planner output invalid after repair: " ++ e2)) := by
  constructor
  · intro m
    unfold LLMPlanner.plan
    rcases h0 : parse (responses 0) with _ | obj
    · dsimp only
      rcases h1 : parse (responses 1) with _ | obj1
      · dsimp only
        exact fun hm => Except.noConfusion hm
      · dsimp only
        rcases h2 : validate obj1 with e | m1
        · dsimp only
          rcases h3 : parse (responses 2) with _ | obj2
          · dsimp only
            exact fun hm => Except.noConfusion hm
          · dsimp only
            rcases h4 : validate obj2 with e2 | m2
            · dsimp only
              exact fun hm => Except.noConfusion hm
            · dsimp only
              exact fun hm => ⟨obj2, h4.trans (congrArg Except.ok (Except.ok.inj hm))⟩
        · dsimp only
          exact fun hm => ⟨obj1, h2.trans (congrArg Except.ok (Except.ok.inj hm))⟩
    · dsimp only
      rcases h2 : validate obj with e | m1
      · dsimp only
        rcases h1 : parse (responses 1) with _ | obj1
        · dsimp only
          exact fun hm => Except.noConfusion hm
        · dsimp only
          rcases h4 : validate obj1 with e2 | m2
          · dsimp only
            exact fun hm => Except.noConfusion hm
          · dsimp only
            exact fun hm => ⟨obj1, h4.trans (congrArg Except.ok (Except.ok.inj hm))⟩
      · dsimp only
        exact fun hm => ⟨obj, h2.trans (congrArg Except.ok (Except.ok.inj hm))⟩
  · intro obj obj2 e e2 h0 h2 h1 h4
    unfold LLMPlanner.plan
    rw [h0]
    dsimp only
    rw [h2]
    dsimp only
    rw [h1]
    dsimp only
    rw [h4]

/-- Witness for C6: the all-good oracle returns a validated model, and an
always-invalid oracle is fatal after the single repair. -/
theorem planner_returns_only_validated_witness :
    (∃ obj : String, (Except.ok obj : Except String String) = Except.ok "good")
    ∧ (LLMPlanner.plan (fun _ => "x") (fun s => some s)
        (fun _ : String => (Except.error "bad" : Except String String))).1 =
      Except.error ("Planner output invalid after repair: " ++ "bad") :=
  ⟨(planner_returns_only_validated (fun _ => "good") (fun s => some s)
      (fun s => (Except.ok s : Except String String))).1 "good" rfl,
   (planner_returns_only_validated (fun _ => "x") (fun s => some s)
      (fun _ : String => (Except.error "bad" : Except String String))).2
      "x" "x" "bad" "bad" rfl rfl rfl rfl⟩

/-! ## C9 — duplicate messages short-circuit before planning -/

/-- C9: when the message carries a provider id and the dedupe store reports
it already seen (`mark` returned false), `handle_message` returns the
duplicate reply immediately; the turn's audit trace is empty — in
particular it holds no PLAN and no TOOL event — and no tool runs. -/
theorem dedupe_duplicate_short_circuit {Args Res : Type}
    (S : AgentOrchestrator.SettingsM) (O : Env Args Res) (msg : UserMessage)
    (hrate : (S.rate_limit_enabled && !O.rateAllowed) = false)
    (hmid : msg.message_id.isSome = true)
    (hdup : O.markFirst = false) :
    (AgentOrchestrator.handle_message S O msg).response =
      { intent := "unknown", reply := AgentOrchestrator.duplicateReply, missing := [] }
    ∧ (AgentOrchestrator.handle_message S O msg).events = []
    ∧ (AgentOrchestrator.handle_message S O msg).invocations = []
    ∧ ∀ e ∈ (AgentOrchestrator.handle_message S O msg).events,
        (∀ i, e ≠ Event.planEv i) ∧ (∀ n c, e ≠ Event.toolEv n c) := by
  have h : AgentOrchestrator.handle_message S O msg =
      { response := { intent := "unknown", reply := AgentOrchestrator.duplicateReply,
                      missing := [] },
        events := [], invocations := [], creates := [] } := by
    unfold AgentOrchestrator.handle_message
    rw [hrate, hmid, hdup]
    simp [AgentOrchestrator.finishTurn]
  rw [h]
  refine ⟨rfl, rfl, rfl, ?_⟩
  intro e he
  cases he

/-- Witness for C9 at a concrete duplicate delivery. -/
theorem dedupe_duplicate_short_circuit_witness :
    (AgentOrchestrator.handle_message witnessSettings duplicateTurnEnv
      { message := "hola", session_id := some "s1", channel := "wa",
        user_id := none, message_id := some "mid1" }).response =
      { intent := "unknown", reply := AgentOrchestrator.duplicateReply, missing := [] }
    ∧ (AgentOrchestrator.handle_message witnessSettings duplicateTurnEnv
      { message := "hola", session_id := some "s1", channel := "wa",
        user_id := none, message_id := some "mid1" }).events = []
    ∧ (AgentOrchestrator.handle_message witnessSettings duplicateTurnEnv
      { message := "hola", session_id := some "s1", channel := "wa",
        user_id := none, message_id := some "mid1" }).invocations = []
    ∧ ∀ e ∈ (AgentOrchestrator.handle_message witnessSettings duplicateTurnEnv
      { message := "hola", session_id := some "s1", channel := "wa",
        user_id := none, message_id := some "mid1" }).events,
        (∀ i, e ≠ Event.planEv i) ∧ (∀ n c, e ≠ Event.toolEv n c) :=
  dedupe_duplicate_short_circuit witnessSettings duplicateTurnEnv
    { message := "hola", session_id := some "s1", channel := "wa",
      user_id := none, message_id := some "mid1" } rfl rfl rfl

/-! ## C2 — the confirmation shortcut (code bug) -/

/-- C2 evaluated at the failing input: the message `"confirm abc123"` in
session `s1`, with a valid pending confirmation for token `abc123` in the
store (the last conjunct shows that a direct, correctly-spelled `consume`
would succeed).  `_consume_confirmation` calls
`consume(db, token=..., session_id=...)` although the parameter is named
`token_or_code`, so the shortcut raises `TypeError`; the top-level handler
replies with the fixed generic error, not with a tool result and not with
the invalid-or-expired reply, and no tool is executed. -/
theorem confirm_command_type_error :
    ((AgentOrchestrator.handle_message witnessSettings confirmTurnEnv
        { message := "confirm abc123", session_id := some "s1", channel := "web",
          user_id := none, message_id := none }).response =
      { intent := "error", reply := AgentOrchestrator.genericErrorReply, missing := [] })
    ∧ ((AgentOrchestrator.handle_message witnessSettings confirmTurnEnv
        { message := "confirm abc123", session_id := some "s1", channel := "web",
          user_id := none, message_id := none }).events =
      [Event.inMsg "confirm abc123",
       Event.errorEv "TypeError: consume() got an unexpected keyword argument"])
    ∧ ((AgentOrchestrator.handle_message witnessSettings confirmTurnEnv
        { message := "confirm abc123", session_id := some "s1", channel := "web",
          user_id := none, message_id := none }).invocations = [])
    ∧ ((MySQLConfirmationStore.consume confirmTurnEnv.confRows "abc123" "s1"
        confirmTurnEnv.now).1 =
      some { session_id := "s1", tool_name := "create_appointment",
             tool_args_json := "args" }) :=
  ⟨rfl, rfl, rfl, rfl⟩

/-! ## C8 — registration guardrail with an empty tool-call list -/

/-- C8 (amended): a message matching a customer-registration phrase whose
validated plan carries no tool calls always ends the turn with an `error`
intent and the fixed corrective reply (which shows the retry command
format, though it does not literally name the `register_customer` tool) —
regardless of the plan's final text, missing slots, or intent; the plan's
final answer is never returned. -/
theorem registration_guardrail_empty_tools {Args Res : Type}
    (S : AgentOrchestrator.SettingsM) (O : Env Args Res) (msg : UserMessage)
    (plan : PlannerOutput Args)
    (hrate : (S.rate_limit_enabled && !O.rateAllowed) = false)
    (hdup : (msg.message_id.isSome && !O.markFirst) = false)
    (htok : AgentOrchestrator.extract_confirm_token msg.message = none)
    (hplan : O.planner = Except.ok plan)
    (hwants : AgentOrchestrator.wantsRegisterCustomer msg.message = true)
    (hempty : plan.tool_calls = []) :
    (AgentOrchestrator.handle_message S O msg).response =
      { intent := "error", reply := AgentOrchestrator.registrationNoToolReply,
        missing := [] } := by
  unfold AgentOrchestrator.handle_message
  rw [hrate, hdup, htok, hplan]
  simp [AgentOrchestrator.guardStage, AgentOrchestrator.finishTurn,
        AgentOrchestrator.finalizeTurn, hwants, hempty]

/-- Witness for the amended C8 at a concrete registration request whose
plan has a final answer, a non-error intent and no tool calls. -/
theorem registration_guardrail_empty_tools_witness :
    (AgentOrchestrator.handle_message witnessSettings registrationTurnEnv
      { message := "registrar cliente por favor", session_id := some "s1",
        channel := "web", user_id := none, message_id := none }).response =
      { intent := "error", reply := AgentOrchestrator.registrationNoToolReply,
        missing := [] } :=
  registration_guardrail_empty_tools witnessSettings registrationTurnEnv
    { message := "registrar cliente por favor", session_id := some "s1",
      channel := "web", user_id := none, message_id := none }
    { intent := "faq", missing := [], tool_calls := [], final := some "listo",
      confidence := 1 }
    rfl rfl rfl rfl rfl rfl

set_option maxRecDepth 4000 in
/-- C8 counterexample: the guardrail reply of the empty-tool-call branch
does not contain the canonical tool name `register_customer` anywhere (it
only shows the `registrar cliente | ...` retry format), so the claim's
"reply that names the canonical registration tool" fails on this turn even
though the intent is `error` as claimed. -/
theorem registration_guardrail_counterexample :
    ((AgentOrchestrator.handle_message witnessSettings registrationTurnEnv
        { message := "registrar cliente por favor", session_id := some "s1",
          channel := "web", user_id := none, message_id := none }).response.intent
      = "error")
    ∧ (pyIn "register_customer"
        (AgentOrchestrator.handle_message witnessSettings registrationTurnEnv
          { message := "registrar cliente por favor", session_id := some "s1",
            channel := "web", user_id := none, message_id := none }).response.reply
      = false) :=
  ⟨rfl, rfl⟩

/-! ## C3 — write-scoped tools are never run unconfirmed -/

theorem writeNeverUnconfirmed_nil {Args Res : Type} (O : Env Args Res) :
    AgentOrchestrator.writeNeverUnconfirmed O [] := by
  intro n c hm
  cases hm

theorem writeNeverUnconfirmed_append_one {Args Res : Type} (O : Env Args Res)
    (invs : List (String × Bool)) (n : String) (c : Bool)
    (h : AgentOrchestrator.writeNeverUnconfirmed O invs)
    (hc : c = false → ∀ t, O.registry n = some t → "write" ∉ t.scopes) :
    AgentOrchestrator.writeNeverUnconfirmed O (invs ++ [(n, c)]) := by
  intro n' c' hm hcf t hreg
  rcases List.mem_append.mp hm with h1 | h1
  · exact h n' c' h1 hcf t hreg
  · have h2 := List.mem_singleton.mp h1
    have hn : n' = n := congrArg Prod.fst h2
    have hcc : c' = c := congrArg Prod.snd h2
    subst hn
    subst hcc
    exact hc hcf t hreg

/-- `_run_tool` preserves the invariant: the entry it appends carries its
own `confirmed` flag, and the caller guarantees the flag is legal for the
tool's scopes. -/
theorem runTool_inv_preserved {Args Res : Type} (O : Env Args Res) (name : String)
    (args : Args) (confirmed : Bool) (acc : Traces Args)
    (hinv : AgentOrchestrator.writeNeverUnconfirmed O acc.invocations)
    (hc : confirmed = false → ∀ t, O.registry name = some t → "write" ∉ t.scopes) :
    (∀ out acc', AgentOrchestrator.runTool O name args confirmed acc = .ok (out, acc') →
        AgentOrchestrator.writeNeverUnconfirmed O acc'.invocations)
    ∧ (∀ e acc', AgentOrchestrator.runTool O name args confirmed acc = .error (e, acc') →
        AgentOrchestrator.writeNeverUnconfirmed O acc'.invocations) := by
  unfold AgentOrchestrator.runTool
  cases hreg : O.registry name with
  | none =>
    dsimp only
    constructor
    · intro out acc' h
      exact Except.noConfusion h
    · intro e acc' h
      injection h with h1
      injection h1 with he hacc
      subst hacc
      exact hinv
  | some tool =>
    dsimp only
    cases hv : tool.validateArgs args with
    | error e0 =>
      dsimp only
      constructor
      · intro out acc' h
        exact Except.noConfusion h
      · intro e acc' h
        injection h with h1
        injection h1 with he hacc
        subst hacc
        exact hinv
    | ok parsed =>
      dsimp only
      have hnew : AgentOrchestrator.writeNeverUnconfirmed O
          (acc.invocations ++ [(name, confirmed)]) :=
        writeNeverUnconfirmed_append_one O acc.invocations name confirmed hinv hc
      cases hr : tool.run parsed confirmed with
      | ok out0 =>
        dsimp only
        constructor
        · intro out acc' h
          injection h with h1
          injection h1 with hout hacc
          subst hacc
          exact hnew
        · intro e acc' h
          exact Except.noConfusion h
      | error e0 =>
        dsimp only
        constructor
        · intro out acc' h
          exact Except.noConfusion h
        · intro e acc' h
          injection h with h1
          injection h1 with he hacc
          subst hacc
          exact hnew

/-- The tool loop preserves the invariant: it only ever runs tools whose
scopes exclude `"write"`, always with `confirmed = false`. -/
theorem toolLoop_inv {Args Res : Type} (S : AgentOrchestrator.SettingsM)
    (O : Env Args Res) (sid intent : String) (tcs : List (ToolCall Args)) :
    ∀ (acc : Traces Args) (results : List (String × Res)),
      AgentOrchestrator.writeNeverUnconfirmed O acc.invocations →
      (∀ out acc',
          AgentOrchestrator.toolLoop S O sid intent tcs acc results = .ok (out, acc') →
          AgentOrchestrator.writeNeverUnconfirmed O acc'.invocations)
      ∧ (∀ e acc',
          AgentOrchestrator.toolLoop S O sid intent tcs acc results = .error (e, acc') →
          AgentOrchestrator.writeNeverUnconfirmed O acc'.invocations) := by
  induction tcs with
  | nil =>
    intro acc results hinv
    constructor
    · intro out acc' h
      simp only [AgentOrchestrator.toolLoop, AgentOrchestrator.finalizeTurn] at h
      injection h with h1
      injection h1 with hresp hacc
      subst hacc
      exact hinv
    · intro e acc' h
      simp only [AgentOrchestrator.toolLoop, AgentOrchestrator.finalizeTurn] at h
      exact Except.noConfusion h
  | cons tc rest ih =>
    intro acc results hinv
    cases hreg : O.registry tc.name with
    | none =>
      constructor
      · intro out acc' h
        simp only [AgentOrchestrator.toolLoop, hreg] at h
        exact Except.noConfusion h
      · intro e acc' h
        simp only [AgentOrchestrator.toolLoop, hreg] at h
        injection h with h1
        injection h1 with he hacc
        subst hacc
        exact hinv
    | some tool =>
      by_cases hw : "write" ∈ tool.scopes
      · constructor
        · intro out acc' h
          simp only [AgentOrchestrator.toolLoop, hreg] at h
          rw [if_pos hw] at h
          simp only [AgentOrchestrator.finalizeTurn] at h
          injection h with h1
          injection h1 with hresp hacc
          subst hacc
          exact hinv
        · intro e acc' h
          simp only [AgentOrchestrator.toolLoop, hreg] at h
          rw [if_pos hw] at h
          simp only [AgentOrchestrator.finalizeTurn] at h
          exact Except.noConfusion h
      · have hc : false = false → ∀ t, O.registry tc.name = some t →
            "write" ∉ t.scopes := by
          intro _ t ht
          rw [hreg] at ht
          injection ht with h3
          rw [← h3]
          exact hw
        have hcall := runTool_inv_preserved O tc.name tc.args false acc hinv hc
        constructor
        · intro out acc' h
          simp only [AgentOrchestrator.toolLoop, hreg] at h
          rw [if_neg hw] at h
          cases hrun : AgentOrchestrator.runTool O tc.name tc.args false acc with
          | error ea =>
            rw [hrun] at h
            try dsimp only at h
            exact Except.noConfusion h
          | ok oa =>
            obtain ⟨out0, acc0⟩ := oa
            rw [hrun] at h
            try dsimp only at h
            exact (ih acc0 (results ++ [(tc.name, out0)]) (hcall.1 out0 acc0 hrun)).1
              out acc' h
        · intro e acc' h
          simp only [AgentOrchestrator.toolLoop, hreg] at h
          rw [if_neg hw] at h
          cases hrun : AgentOrchestrator.runTool O tc.name tc.args false acc with
          | error ea =>
            obtain ⟨e0, acc0⟩ := ea
            rw [hrun] at h
            try dsimp only at h
            injection h with h1
            injection h1 with he hacc
            subst hacc
            exact hcall.2 e0 acc0 hrun
          | ok oa =>
            obtain ⟨out0, acc0⟩ := oa
            rw [hrun] at h
            try dsimp only at h
            exact (ih acc0 (results ++ [(tc.name, out0)]) (hcall.1 out0 acc0 hrun)).2
              e acc' h

/-- The guardrail stage preserves the invariant: every terminal short of
the tool loop leaves the invocation trace untouched. -/
theorem guardStage_inv {Args Res : Type} (S : AgentOrchestrator.SettingsM)
    (O : Env Args Res) (msg : UserMessage) (sid : String)
    (plan : PlannerOutput Args) (acc : Traces Args)
    (hinv : AgentOrchestrator.writeNeverUnconfirmed O acc.invocations) :
    (∀ resp acc',
        AgentOrchestrator.guardStage S O msg sid plan acc = .ok (resp, acc') →
        AgentOrchestrator.writeNeverUnconfirmed O acc'.invocations)
    ∧ (∀ e acc',
        AgentOrchestrator.guardStage S O msg sid plan acc = .error (e, acc') →
        AgentOrchestrator.writeNeverUnconfirmed O acc'.invocations) := by
  constructor
  · intro resp acc' h
    simp only [AgentOrchestrator.guardStage] at h
    repeat' split at h
    all_goals first
      | (simp only [AgentOrchestrator.finalizeTurn] at h
         injection h with h1
         injection h1 with hresp hacc
         subst hacc
         exact hinv)
      | exact (toolLoop_inv S O sid plan.intent plan.tool_calls acc [] hinv).1
          resp acc' h
  · intro e acc' h
    simp only [AgentOrchestrator.guardStage] at h
    repeat' split at h
    all_goals first
      | (simp only [AgentOrchestrator.finalizeTurn] at h
         exact Except.noConfusion h)
      | exact (toolLoop_inv S O sid plan.intent plan.tool_calls acc [] hinv).2
          e acc' h

/-- The error/success continuation preserves the invariant. -/
theorem finishTurn_inv {Args Res : Type} (O : Env Args Res)
    (body : Except (String × Traces Args) (AgentResponse × Traces Args))
    (hok : ∀ resp acc', body = .ok (resp, acc') →
        AgentOrchestrator.writeNeverUnconfirmed O acc'.invocations)
    (herr : ∀ e acc', body = .error (e, acc') →
        AgentOrchestrator.writeNeverUnconfirmed O acc'.invocations) :
    AgentOrchestrator.writeNeverUnconfirmed O
      (AgentOrchestrator.finishTurn body).invocations := by
  cases body with
  | ok pr =>
    obtain ⟨resp, acc⟩ := pr
    exact hok resp acc rfl
  | error pr =>
    obtain ⟨e, acc⟩ := pr
    exact herr e acc rfl

/-- C3: over every turn, a tool whose declared scopes include `"write"` is
never invoked with `confirmed = false` (every unconfirmed invocation in the
trace targets a tool without the write scope); and when the tool loop
reaches a write-scoped tool call first, it creates a PendingConfirmation
capturing that call and returns the confirmation reply embedding the token
instead of running the tool (the invocation trace is left untouched). -/
theorem write_confirmation_invariant {Args Res : Type}
    (S : AgentOrchestrator.SettingsM) (O : Env Args Res) (msg : UserMessage) :
    AgentOrchestrator.writeNeverUnconfirmed O
      (AgentOrchestrator.handle_message S O msg).invocations
    ∧ (∀ (sid intent : String) (tc : ToolCall Args) (rest : List (ToolCall Args))
        (acc : Traces Args) (results : List (String × Res)) (tool : Tool Args Res),
        O.registry tc.name = some tool → "write" ∈ tool.scopes →
        AgentOrchestrator.toolLoop S O sid intent (tc :: rest) acc results =
          AgentOrchestrator.finalizeTurn intent
            (AgentOrchestrator.confirmationRequiredReply tc.name (O.dumpsArgs tc.args)
              (AgentOrchestrator.pyDictRepr O.confirmToken
                (AgentOrchestrator.confirmShortVal O)))
            [] { acc with creates := acc.creates ++ [⟨sid, tc.name, tc.args⟩] }) := by
  constructor
  · unfold AgentOrchestrator.handle_message
    by_cases hrl : (S.rate_limit_enabled && !O.rateAllowed) = true
    · rw [hrl]
      exact writeNeverUnconfirmed_nil O
    · have hrl' : (S.rate_limit_enabled && !O.rateAllowed) = false := by
        simpa using hrl
      rw [hrl']
      dsimp only
      refine finishTurn_inv O _ ?_ ?_
      · intro resp acc' h
        by_cases hd : (msg.message_id.isSome && !O.markFirst) = true
        · rw [hd] at h
          try dsimp only at h
          injection h with h1
          injection h1 with hresp hacc
          subst hacc
          exact writeNeverUnconfirmed_nil O
        · have hd' : (msg.message_id.isSome && !O.markFirst) = false := by
            simpa using hd
          rw [hd'] at h
          try dsimp only at h
          cases htok : AgentOrchestrator.extract_confirm_token msg.message with
          | some tok =>
            rw [htok] at h
            try dsimp only at h
            have hkw : MySQLConfirmationStore.consumeKwCall O.confRows O.now
                [("token", tok), ("session_id", msg.session_id.getD O.request_id)] =
                .error "TypeError: consume() got an unexpected keyword argument" := rfl
            rw [hkw] at h
            try dsimp only at h
            exact Except.noConfusion h
          | none =>
            rw [htok] at h
            try dsimp only at h
            cases hpl : O.planner with
            | error e0 =>
              rw [hpl] at h
              try dsimp only at h
              exact Except.noConfusion h
            | ok plan =>
              rw [hpl] at h
              try dsimp only at h
              exact (guardStage_inv S O msg _ plan _
                (writeNeverUnconfirmed_nil O)).1 resp acc' h
      · intro e acc' h
        by_cases hd : (msg.message_id.isSome && !O.markFirst) = true
        · rw [hd] at h
          try dsimp only at h
          exact Except.noConfusion h
        · have hd' : (msg.message_id.isSome && !O.markFirst) = false := by
            simpa using hd
          rw [hd'] at h
          try dsimp only at h
          cases htok : AgentOrchestrator.extract_confirm_token msg.message with
          | some tok =>
            rw [htok] at h
            try dsimp only at h
            have hkw : MySQLConfirmationStore.consumeKwCall O.confRows O.now
                [("token", tok), ("session_id", msg.session_id.getD O.request_id)] =
                .error "TypeError: consume() got an unexpected keyword argument" := rfl
            rw [hkw] at h
            try dsimp only at h
            injection h with h1
            injection h1 with he hacc
            subst hacc
            exact writeNeverUnconfirmed_nil O
          | none =>
            rw [htok] at h
            try dsimp only at h
            cases hpl : O.planner with
            | error e0 =>
              rw [hpl] at h
              try dsimp only at h
              injection h with h1
              injection h1 with he hacc
              subst hacc
              exact writeNeverUnconfirmed_nil O
            | ok plan =>
              rw [hpl] at h
              try dsimp only at h
              exact (guardStage_inv S O msg _ plan _
                (writeNeverUnconfirmed_nil O)).2 e acc' h
  · intro sid intent tc rest acc results tool hreg hw
    simp only [AgentOrchestrator.toolLoop, hreg]
    rw [if_pos hw]

/-- Witness for C3: in a concrete turn that runs the read tool `ping`, its
single unconfirmed invocation targets a tool without the write scope; and
the loop reaching the write tool `book` first returns the confirmation
reply with the create-call recorded and no invocation. -/
theorem write_confirmation_invariant_witness :
    (("write" : String) ∉ (["read"] : List String))
    ∧ (AgentOrchestrator.toolLoop witnessSettings readToolEnv "s1" "write_action"
        [⟨"book", ()⟩] {} [] =
      AgentOrchestrator.finalizeTurn "write_action"
        (AgentOrchestrator.confirmationRequiredReply "book"
          (readToolEnv.dumpsArgs ())
          (AgentOrchestrator.pyDictRepr readToolEnv.confirmToken
            (AgentOrchestrator.confirmShortVal readToolEnv)))
        [] { creates := [⟨"s1", "book", ()⟩] }) :=
  ⟨(write_confirmation_invariant witnessSettings readToolEnv
      { message := "hola", session_id := some "s1", channel := "web",
        user_id := none, message_id := none }).1
    "ping" false (List.mem_singleton.mpr rfl) rfl
    { scopes := ["read"], validateArgs := fun a => Except.ok a,
      run := fun _ _ => Except.ok () } rfl,
   (write_confirmation_invariant witnessSettings readToolEnv
      { message := "hola", session_id := some "s1", channel := "web",
        user_id := none, message_id := none }).2
    "s1" "write_action" ⟨"book", ()⟩ [] {} []
    { scopes := ["write"], validateArgs := fun a => Except.ok a,
      run := fun _ _ => Except.ok () } rfl (List.mem_singleton.mpr rfl)⟩
